import Mathlib

/-!
Verification of the stock-calculation and safety-stock-update logic of the
inventory dashboard in `src/app.py`.

The embedding models:
* a transaction row of the 재고내역 table (item code, date, description,
  inbound quantity 입고 수량, outbound quantity 출고 수량);
* `current_stock` (src/app.py lines 119-122): 0 when the filtered
  transaction list is empty, otherwise the sum of the inbound column minus
  the sum of the outbound column;
* `available_stock` (line 125): current stock minus safety stock;
* the shortage-warning condition (line 135): `available_stock <= 0`;
* the running-balance column 잔량 (line 142): cumulative sum of
  inbound minus outbound over the date-sorted transactions;
* the save-button handler (lines 84-96) that writes the safety stock to the
  database, mirrors it into the session dictionary, and clears the memoized
  bulk-load cache, all inside a try/except.

Dates are modelled as naturals (only their order matters), quantities as
integers (pandas integer columns).
-/

/-- A row of the 재고내역 (transaction ledger) table. -/
structure Transaction where
  item_code : String
  date : Nat
  description : String
  inbound_qty : Int
  outbound_qty : Int
deriving Repr, DecidableEq, Inhabited

/-- `current_stock` from src/app.py lines 119-122: initialised to 0 and, when
the item's transaction list is nonempty, set to the inbound column sum minus
the outbound column sum. -/
def current_stock (txs : List Transaction) : Int :=
  if txs.isEmpty then 0
  else (txs.map (fun t => t.inbound_qty)).sum - (txs.map (fun t => t.outbound_qty)).sum

/-- `available_stock` from src/app.py line 125: current stock minus safety
stock. -/
def available_stock (current safety : Int) : Int :=
  current - safety

/-- The shortage-warning condition from src/app.py line 135: the warning is
shown exactly when `available_stock <= 0`. -/
def is_shortage (avail : Int) : Bool :=
  decide (avail ≤ 0)

/-- The derived stock snapshot of the spec, assembled the way the main view
of src/app.py computes its three metrics and the warning condition. -/
structure StockSnapshot where
  current : Int
  safety : Int
  available : Int
  shortage : Bool
deriving Repr, DecidableEq

/-- Snapshot computation: `current_stock`, then `available_stock`, then the
shortage condition, as in src/app.py lines 119-136. -/
def compute_snapshot (txs : List Transaction) (safety : Int) : StockSnapshot :=
  let c := current_stock txs
  let a := available_stock c safety
  ⟨c, safety, a, is_shortage a⟩

lemma current_stock_eq_sums (txs : List Transaction) :
    current_stock txs
      = (txs.map (fun t => t.inbound_qty)).sum - (txs.map (fun t => t.outbound_qty)).sum := by
  cases txs with
  | nil => simp [current_stock]
  | cons t ts => simp [current_stock]

/-- C1: the computed current stock equals the sum of all inbound quantities
minus the sum of all outbound quantities, and the value depends only on the
multiset of transactions, not on their order. -/
theorem current_stock_sum_and_order_indep
    (txs txs' : List Transaction) (h : txs.Perm txs') :
    current_stock txs
        = (txs.map (fun t => t.inbound_qty)).sum - (txs.map (fun t => t.outbound_qty)).sum
      ∧ current_stock txs = current_stock txs' := by
  refine ⟨current_stock_eq_sums txs, ?_⟩
  rw [current_stock_eq_sums, current_stock_eq_sums]
  rw [(h.map (fun t => t.inbound_qty)).sum_eq, (h.map (fun t => t.outbound_qty)).sum_eq]

/-- Witness for C1 at a concrete pair of reordered transaction lists. -/
theorem current_stock_sum_and_order_indep_witness :
    current_stock [⟨"A", 1, "in", 100, 0⟩, ⟨"A", 5, "out", 0, 30⟩]
        = ((([⟨"A", 1, "in", 100, 0⟩, ⟨"A", 5, "out", 0, 30⟩] : List Transaction).map
              (fun t => t.inbound_qty)).sum
            - (([⟨"A", 1, "in", 100, 0⟩, ⟨"A", 5, "out", 0, 30⟩] : List Transaction).map
              (fun t => t.outbound_qty)).sum)
      ∧ current_stock [⟨"A", 1, "in", 100, 0⟩, ⟨"A", 5, "out", 0, 30⟩]
        = current_stock [⟨"A", 5, "out", 0, 30⟩, ⟨"A", 1, "in", 100, 0⟩] :=
  current_stock_sum_and_order_indep _ _ (List.Perm.swap _ _ _)

/-- C2: available stock is exactly current stock minus safety stock for all
integer inputs, the snapshot pipeline computes it that way from the
transactions, and a negative value is produced as an ordinary result (here
−5), not rejected as an error. -/
theorem available_stock_spec :
    (∀ c s : Int, available_stock c s = c - s)
      ∧ (∀ (txs : List Transaction) (s : Int),
          (compute_snapshot txs s).available = current_stock txs - s)
      ∧ (compute_snapshot ([] : List Transaction) 5).available = -5 := by
  refine ⟨fun c s => rfl, fun txs s => rfl, ?_⟩
  simp [compute_snapshot, current_stock, available_stock]

/-- C3: the shortage warning is signalled iff available stock is at most
zero, the snapshot pipeline uses exactly that condition, and the boundary is
inclusive: available stock exactly 0 counts as a shortage. -/
theorem is_shortage_iff_nonpos :
    (∀ a : Int, is_shortage a = true ↔ a ≤ 0)
      ∧ (∀ (txs : List Transaction) (s : Int),
          (compute_snapshot txs s).shortage = true ↔ (compute_snapshot txs s).available ≤ 0)
      ∧ is_shortage 0 = true := by
  refine ⟨fun a => by simp [is_shortage], fun txs s => by simp [compute_snapshot, is_shortage], ?_⟩
  simp [is_shortage]

/-- Cumulative sum of an integer list with an explicit accumulator: the
shape of pandas `Series.cumsum()` used at src/app.py line 142. -/
def cumsum_from (acc : Int) : List Int → List Int
  | [] => []
  | x :: xs => (acc + x) :: cumsum_from (acc + x) xs

/-- The 잔량 (running balance) column of src/app.py line 142: the cumulative
sum of `inbound_qty - outbound_qty` over the item's transactions. -/
def running_balances (txs : List Transaction) : List Int :=
  cumsum_from 0 (txs.map (fun t => t.inbound_qty - t.outbound_qty))

/-- Adjacent dates are ascending: the state produced by
`sort_values(by='일자', ascending=True)` at src/app.py line 117. -/
def dates_ascending : List Transaction → Bool
  | [] => true
  | [_] => true
  | a :: b :: rest => a.date ≤ b.date && dates_ascending (b :: rest)

/-- The list is sorted ascending by date (adjacent pairs in order). -/
abbrev sorted_by_date (txs : List Transaction) : Prop :=
  dates_ascending txs = true

lemma cumsum_from_length (l : List Int) (acc : Int) :
    (cumsum_from acc l).length = l.length := by
  induction l generalizing acc with
  | nil => rfl
  | cons x xs ih => simp [cumsum_from, ih]

lemma cumsum_from_getD_zero (l : List Int) (acc : Int) (h : l ≠ []) :
    (cumsum_from acc l).getD 0 0 = acc + l.getD 0 0 := by
  cases l with
  | nil => exact absurd rfl h
  | cons x xs => rfl

lemma cumsum_from_getD_succ (l : List Int) (acc : Int) (i : Nat)
    (h : i + 1 < l.length) :
    (cumsum_from acc l).getD (i + 1) 0
      = (cumsum_from acc l).getD i 0 + l.getD (i + 1) 0 := by
  induction l generalizing acc i with
  | nil => simp at h
  | cons x xs ih =>
    cases i with
    | zero =>
      simp only [List.length_cons] at h
      have hxs : xs ≠ [] := by
        cases xs with
        | nil => simp at h
        | cons y ys => simp
      show (cumsum_from (acc + x) xs).getD 0 0 = acc + x + xs.getD 0 0
      exact cumsum_from_getD_zero xs (acc + x) hxs
    | succ j =>
      simp only [List.length_cons] at h
      have hj : j + 1 < xs.length := by omega
      show (cumsum_from (acc + x) xs).getD (j + 1) 0
        = (cumsum_from (acc + x) xs).getD j 0 + xs.getD (j + 1) 0
      exact ih (acc + x) j hj

lemma getD_map_delta (txs : List Transaction) (i : Nat) (h : i < txs.length) :
    ((txs.map (fun t => t.inbound_qty - t.outbound_qty)).getD i 0)
      = (txs.getD i default).inbound_qty - (txs.getD i default).outbound_qty := by
  induction txs generalizing i with
  | nil => simp at h
  | cons t ts ih =>
    cases i with
    | zero => rfl
    | succ j =>
      simp only [List.length_cons] at h
      have hj : j < ts.length := by omega
      simpa using ih j hj

/-- C4: on a date-sorted transaction list the running-balance computation
yields exactly one value per transaction, in input order (position `i` of the
output annotates position `i` of the input), and each value is the previous
one (0 before the first) plus that transaction's inbound minus outbound
quantity. -/
theorem running_balances_recurrence (txs : List Transaction)
    (_hs : sorted_by_date txs) :
    (running_balances txs).length = txs.length
      ∧ ∀ i, i < txs.length →
          (running_balances txs).getD i 0
            = (if i = 0 then 0 else (running_balances txs).getD (i - 1) 0)
              + ((txs.getD i default).inbound_qty - (txs.getD i default).outbound_qty) := by
  constructor
  · unfold running_balances
    rw [cumsum_from_length, List.length_map]
  · intro i hi
    have hlen : i < (txs.map (fun t => t.inbound_qty - t.outbound_qty)).length := by
      simpa using hi
    cases i with
    | zero =>
      have hne : txs.map (fun t => t.inbound_qty - t.outbound_qty) ≠ [] := by
        intro hnil
        rw [hnil] at hlen
        simp at hlen
      unfold running_balances
      rw [cumsum_from_getD_zero _ 0 hne]
      rw [getD_map_delta txs 0 hi]
      simp
    | succ j =>
      unfold running_balances
      have hstep := cumsum_from_getD_succ
        (txs.map (fun t => t.inbound_qty - t.outbound_qty)) 0 j hlen
      rw [hstep, getD_map_delta txs (j + 1) hi]
      simp [Int.add_comm]

/-- Witness for C4 at the spec's scenario transactions
(+100 on day 1, −30 on day 5, +20 on day 10). -/
theorem running_balances_recurrence_witness :
    (running_balances
        [⟨"A", 1, "in", 100, 0⟩, ⟨"A", 5, "out", 0, 30⟩, ⟨"A", 10, "in", 20, 0⟩]).length
      = ([⟨"A", 1, "in", 100, 0⟩, ⟨"A", 5, "out", 0, 30⟩,
          ⟨"A", 10, "in", 20, 0⟩] : List Transaction).length
    ∧ ∀ i, i < ([⟨"A", 1, "in", 100, 0⟩, ⟨"A", 5, "out", 0, 30⟩,
          ⟨"A", 10, "in", 20, 0⟩] : List Transaction).length →
        (running_balances
            [⟨"A", 1, "in", 100, 0⟩, ⟨"A", 5, "out", 0, 30⟩, ⟨"A", 10, "in", 20, 0⟩]).getD i 0
          = (if i = 0 then 0
              else (running_balances
                [⟨"A", 1, "in", 100, 0⟩, ⟨"A", 5, "out", 0, 30⟩,
                 ⟨"A", 10, "in", 20, 0⟩]).getD (i - 1) 0)
            + ((([⟨"A", 1, "in", 100, 0⟩, ⟨"A", 5, "out", 0, 30⟩,
                  ⟨"A", 10, "in", 20, 0⟩] : List Transaction).getD i default).inbound_qty
               - (([⟨"A", 1, "in", 100, 0⟩, ⟨"A", 5, "out", 0, 30⟩,
                  ⟨"A", 10, "in", 20, 0⟩] : List Transaction).getD i default).outbound_qty) :=
  running_balances_recurrence _ (by decide)

lemma cumsum_from_getLast (l : List Int) (acc : Int) (h : l ≠ []) :
    (cumsum_from acc l).getLast? = some (acc + l.sum) := by
  induction l generalizing acc with
  | nil => exact absurd rfl h
  | cons x xs ih =>
    cases xs with
    | nil => simp [cumsum_from]
    | cons y ys =>
      have hne : (y :: ys) ≠ ([] : List Int) := by simp
      calc (cumsum_from acc (x :: y :: ys)).getLast?
          = (cumsum_from (acc + x) (y :: ys)).getLast? := by
            simp [cumsum_from, List.getLast?_cons_cons]
        _ = some (acc + x + (y :: ys).sum) := ih (acc + x) hne
        _ = some (acc + (x :: y :: ys).sum) := by
            simp [List.sum_cons]
            ring

lemma sum_map_delta (txs : List Transaction) :
    (txs.map (fun t => t.inbound_qty - t.outbound_qty)).sum
      = (txs.map (fun t => t.inbound_qty)).sum - (txs.map (fun t => t.outbound_qty)).sum := by
  induction txs with
  | nil => simp
  | cons t ts ih =>
    simp [List.sum_cons, ih]
    ring

/-- C5: for a nonempty date-sorted transaction list, the last running-balance
value equals the current stock computed from the same list. -/
theorem running_balances_last_eq_current_stock (txs : List Transaction)
    (hne : txs ≠ []) (_hs : sorted_by_date txs) :
    (running_balances txs).getLast? = some (current_stock txs) := by
  have hmapne : txs.map (fun t => t.inbound_qty - t.outbound_qty) ≠ [] := by
    simpa using hne
  unfold running_balances
  rw [cumsum_from_getLast _ 0 hmapne, sum_map_delta, current_stock_eq_sums]
  simp

/-- Witness for C5 at the spec's scenario transactions: the last running
balance is 90, which is the current stock. -/
theorem running_balances_last_eq_current_stock_witness :
    (running_balances
        [⟨"A", 1, "in", 100, 0⟩, ⟨"A", 5, "out", 0, 30⟩, ⟨"A", 10, "in", 20, 0⟩]).getLast?
      = some (current_stock
        [⟨"A", 1, "in", 100, 0⟩, ⟨"A", 5, "out", 0, 30⟩, ⟨"A", 10, "in", 20, 0⟩]) :=
  running_balances_last_eq_current_stock _ (by decide) (by decide)

/-- The detail-table branch of src/app.py lines 141-148: a nonempty list is
rendered as the table with the running-balance column, an empty list shows
the warning message instead. -/
inductive HistoryView where
  | table (balances : List Int)
  | empty_warning
deriving Repr, DecidableEq

/-- The branch on `item_transactions.empty` at src/app.py lines 141-148. -/
def history_view (txs : List Transaction) : HistoryView :=
  if txs.isEmpty then HistoryView.empty_warning
  else HistoryView.table (running_balances txs)

/-- C6: an empty transaction list yields current stock 0 (every snapshot
field is still produced, no error path exists), the running-balance sequence
is empty, and the history section shows the warning rather than failing. -/
theorem empty_history_spec :
    current_stock [] = 0
      ∧ compute_snapshot [] 0 = ⟨0, 0, 0, true⟩
      ∧ running_balances [] = []
      ∧ history_view [] = HistoryView.empty_warning := by
  refine ⟨rfl, ?_, rfl, rfl⟩
  simp [compute_snapshot, current_stock, available_stock, is_shortage]

/-- One value of the 품번-keyed session dictionary built at src/app.py
line 54: the item's display name 품명 and its safety stock 안전재고. -/
structure MasterEntry where
  item_name : String
  safety_stock : Int
deriving Repr, DecidableEq

/-- A row of the 제품마스터 table in the backing store. -/
structure MasterRow where
  item_code : String
  item_name : String
  safety_stock : Int
deriving Repr, DecidableEq

/-- The mutable in-memory state the save handler touches:
`st.session_state.master_data` (the 품번-keyed dictionary) and whether the
memoized result of `load_data_from_db` is still cached
(`st.cache_data.clear()` at src/app.py line 93 makes it false). -/
structure AppState where
  master_data : List (String × MasterEntry)
  cache_valid : Bool
deriving Repr, DecidableEq

/-- Dictionary read `master_data[code]`: the first entry with the key, or
`none` (a Python `KeyError`) when the key is absent. -/
def lookup_master : List (String × MasterEntry) → String → Option MasterEntry
  | [], _ => none
  | (k, e) :: rest, code => if k = code then some e else lookup_master rest code

/-- Dictionary write `master_data[code]['안전재고'] = v` (src/app.py
line 90): replace the safety stock of every entry with that key. -/
def set_master : List (String × MasterEntry) → String → Int → List (String × MasterEntry)
  | [], _, _ => []
  | (k, e) :: rest, code, v =>
    if k = code then (k, { e with safety_stock := v }) :: set_master rest code v
    else (k, e) :: set_master rest code v

/-- `update_safety_stock_in_db` (src/app.py lines 21-30) under standard SQL
semantics of its statement `UPDATE 제품마스터 SET 안전재고 = :stock WHERE
품번 = :code`: every row whose 품번 matches gets the new safety stock; a
statement matching zero rows is still a successful (vacuous) update. -/
def update_safety_stock_in_db (tbl : List MasterRow) (code : String) (v : Int) :
    List MasterRow :=
  tbl.map (fun r => if r.item_code = code then { r with safety_stock := v } else r)

/-- The save-button handler of src/app.py lines 84-96
(the spec's `set_safety_stock`). `db_result` is the outcome of the
`update_safety_stock_in_db` call at line 87 (`Except.error` models a raised
database exception). On a raised exception the `except` branch shows an
error and nothing else runs. Otherwise line 90 reads
`master_data[selected_item]`, which raises `KeyError` (caught by the same
`except`) when the code is absent; on success the entry is updated, the
memoized load is cleared (line 93), and the success message is shown.
Returns the new state and whether the handler reported success. -/
def set_safety_stock (db_result : Except String Unit) (s : AppState)
    (code : String) (v : Int) : AppState × Bool :=
  match db_result with
  | Except.error _ => (s, false)
  | Except.ok _ =>
    match lookup_master s.master_data code with
    | none => (s, false)
    | some _ =>
      ({ master_data := set_master s.master_data code v, cache_valid := false }, true)

lemma lookup_set_master (d : List (String × MasterEntry)) (code : String)
    (v : Int) (e : MasterEntry) (h : lookup_master d code = some e) :
    lookup_master (set_master d code v) code = some { e with safety_stock := v } := by
  induction d with
  | nil => simp [lookup_master] at h
  | cons p rest ih =>
    obtain ⟨k, e0⟩ := p
    by_cases hk : k = code
    · simp [lookup_master, set_master, hk] at h ⊢
      rw [h]
    · simp [lookup_master, set_master, hk] at h ⊢
      exact ih h

/-- C7: when the database write succeeds and the item code exists, the
handler updates the in-memory Item Master entry to the new value (visible to
the next read), invalidates the memoized bulk-load result, and reports
success. -/
theorem set_safety_stock_success (s : AppState) (code : String) (v : Int)
    (e : MasterEntry) (h : lookup_master s.master_data code = some e) :
    lookup_master (set_safety_stock (Except.ok ()) s code v).1.master_data code
        = some { e with safety_stock := v }
      ∧ (set_safety_stock (Except.ok ()) s code v).1.cache_valid = false
      ∧ (set_safety_stock (Except.ok ()) s code v).2 = true := by
  have h2 := lookup_set_master s.master_data code v e h
  simp [set_safety_stock, h, h2]

/-- Witness for C7 at a concrete one-item state. -/
theorem set_safety_stock_success_witness :
    lookup_master (set_safety_stock (Except.ok ())
          ⟨[("A-1", ⟨"widget", 20⟩)], true⟩ "A-1" 50).1.master_data "A-1"
        = some ⟨"widget", 50⟩
      ∧ (set_safety_stock (Except.ok ())
          ⟨[("A-1", ⟨"widget", 20⟩)], true⟩ "A-1" 50).1.cache_valid = false
      ∧ (set_safety_stock (Except.ok ())
          ⟨[("A-1", ⟨"widget", 20⟩)], true⟩ "A-1" 50).2 = true :=
  set_safety_stock_success ⟨[("A-1", ⟨"widget", 20⟩)], true⟩ "A-1" 50
    ⟨"widget", 20⟩ (by decide)

/-- C8: when the database write raises, the handler reports failure and the
state is unchanged: no Item Master entry is touched and the memoized
bulk-load result is not cleared. -/
theorem set_safety_stock_db_failure (msg : String) (s : AppState)
    (code : String) (v : Int) :
    set_safety_stock (Except.error msg) s code v = (s, false) :=
  rfl

/-- C9: calling the handler with an item code absent from the Item Master
reports failure and leaves the Item Master unchanged, both the in-memory
dictionary (line 90 raises `KeyError`, caught by the `except` branch, before
any update or cache clear) and the 제품마스터 table (the `UPDATE` statement
matches no row). This holds whatever the database call's outcome was. -/
theorem set_safety_stock_unknown_code (db : Except String Unit) (s : AppState)
    (code : String) (v : Int) (tbl : List MasterRow)
    (h : lookup_master s.master_data code = none)
    (htbl : ∀ r ∈ tbl, r.item_code ≠ code) :
    set_safety_stock db s code v = (s, false)
      ∧ update_safety_stock_in_db tbl code v = tbl := by
  constructor
  · cases db with
    | error msg => rfl
    | ok u => simp [set_safety_stock, h]
  · induction tbl with
    | nil => rfl
    | cons r rest ih =>
      have hr : r.item_code ≠ code := htbl r (by simp)
      have hrest : ∀ x ∈ rest, x.item_code ≠ code := fun x hx => htbl x (by simp [hx])
      simp [update_safety_stock_in_db, hr] at ih ⊢
      exact ih hrest

/-- Witness for C9: a one-item master and table, updated at an absent code. -/
theorem set_safety_stock_unknown_code_witness :
    set_safety_stock (Except.ok ()) ⟨[("A-1", ⟨"widget", 20⟩)], true⟩ "ZZZ" 7
        = (⟨[("A-1", ⟨"widget", 20⟩)], true⟩, false)
      ∧ update_safety_stock_in_db [⟨"A-1", "widget", 20⟩] "ZZZ" 7
        = [⟨"A-1", "widget", 20⟩] :=
  set_safety_stock_unknown_code (Except.ok ()) ⟨[("A-1", ⟨"widget", 20⟩)], true⟩
    "ZZZ" 7 [⟨"A-1", "widget", 20⟩] (by decide) (by decide)

/-- The whole session-held data the view can see: the Item Master dictionary
(`st.session_state.master_data`) and the transaction table
(`st.session_state.inventory_data`). -/
structure Store where
  master_data : List (String × MasterEntry)
  inventory_data : List Transaction
deriving Repr, DecidableEq

/-- One insertion step of sorting by 일자 ascending. -/
def insert_by_date (t : Transaction) : List Transaction → List Transaction
  | [] => [t]
  | u :: us => if t.date ≤ u.date then t :: u :: us else u :: insert_by_date t us

/-- `sort_values(by='일자', ascending=True)` at src/app.py line 117,
modelled as an insertion sort (the spec defines no tie-break for equal
dates). -/
def sort_values_date (txs : List Transaction) : List Transaction :=
  txs.foldr insert_by_date []

/-- The item-view pipeline of src/app.py lines 108-148: look the code up in
the master dictionary; filter the transaction table to that code and take a
`.copy()` (line 116), sort the copy by date, and render the snapshot and the
history table. The 잔량 column assignment at line 142 mutates only the
copied frame, never `inventory_df` itself, so the session store comes back
unchanged; an unknown or unselected code renders nothing. -/
def view_item (s : Store) (code : String) :
    Store × Option (StockSnapshot × HistoryView) :=
  match lookup_master s.master_data code with
  | none => (s, none)
  | some info =>
    let item_transactions :=
      sort_values_date (s.inventory_data.filter (fun t => t.item_code = code))
    (s, some (compute_snapshot item_transactions info.safety_stock,
              history_view item_transactions))

/-- C10: viewing an item is read-only: the stored Item Master and the stored
transaction table are the same after rendering as before, because the
running-balance column is added only to a copy of the filtered rows. -/
theorem view_item_read_only (s : Store) (code : String) :
    (view_item s code).1.master_data = s.master_data
      ∧ (view_item s code).1.inventory_data = s.inventory_data := by
  unfold view_item
  cases lookup_master s.master_data code with
  | none => exact ⟨rfl, rfl⟩
  | some info => exact ⟨rfl, rfl⟩
